import Mathlib

/-!
# Fantasy-football scoring engine: a shallow embedding

This file embeds the scoring, pattern-analysis, projection-adjustment and
accuracy components of the fantasy-football repository in Lean 4 and proves
properties of them.

Conventions of the embedding:
* Python floats are modelled as exact rationals (`ℚ`); all the scoring rates
  in the sources are decimal constants, written here as exact fractions.
* Python's built-in `round(x, 1)` is banker's rounding (round half to even)
  to one decimal place; it is modelled exactly by `roundTo1`.
* Python dicts with optional keys (`if key in d`, `d.get(key, default)`) are
  modelled as structures of `Option ℚ` fields.
* Python code that can raise an exception (an out-of-range list index) is
  modelled with an `Option` result, `none` marking the raised exception.
* `name.split()` (split on whitespace, dropping empty chunks) is modelled by
  `pythonSplit`, splitting on the space character; the names fed to it by the
  program contain no other whitespace.
-/

namespace FantasyFootball

/-- Round half to even of a rational, the rounding used by Python's `round`. -/
def roundHalfEven (q : ℚ) : ℤ :=
  let f := ⌊q⌋
  let r := q - f
  if r < 1/2 then f
  else if 1/2 < r then f + 1
  else if f % 2 = 0 then f else f + 1

/-- Python's `round(q, 1)`: round to one decimal place, half to even. -/
def roundTo1 (q : ℚ) : ℚ := (roundHalfEven (10 * q) : ℚ) / 10

/-- Python's `str.split()` on the names appearing in this program: split on
the space character and drop empty chunks. -/
def pythonSplit (s : String) : List (List Char) :=
  (s.data.splitOn ' ').filter (· ≠ [])

/-- The short-name conversion `f"{parts[0][0]}.{parts[1]}"` applied to the
first two chunks (`parts[0]` is non-empty, so its first character is
`p0.take 1`). -/
def shortNameOf (p0 p1 : List Char) : String :=
  String.mk (p0.take 1 ++ '.' :: p1)

namespace FantasyProjections

/-! ## `fantasy_projections.py` -/

/-- One touchdown play-by-play row, as consumed by
`HistoricalPatternAnalyzer.analyze_td_patterns` (rows already filtered to
`touchdown == 1` with a non-null `td_player_name`). -/
structure TdPlay where
  td_player_name : String
  yards_gained : ℚ
  deriving DecidableEq

/-- A per-player entry of `HistoricalPatternAnalyzer.td_patterns`. -/
structure TdPattern where
  pct_40_49 : ℚ
  pct_50_plus : ℚ
  deriving DecidableEq

/-- `HistoricalPatternAnalyzer.analyze_td_patterns`: players with fewer than
3 touchdowns are skipped; otherwise the fractions of their touchdowns in the
40-49 and 50+ length bands are recorded. -/
def analyze_td_patterns (td_players : List TdPlay) : List (String × TdPattern) :=
  ((td_players.map (·.td_player_name)).dedup).filterMap (fun player =>
    let player_td_data := td_players.filter (fun p => p.td_player_name == player)
    let total_tds := player_td_data.length
    if total_tds < 3 then none
    else some (player,
      { pct_40_49 :=
          (player_td_data.countP (fun p => decide (40 ≤ p.yards_gained ∧ p.yards_gained < 50)) : ℚ)
            / total_tds,
        pct_50_plus :=
          (player_td_data.countP (fun p => decide (50 ≤ p.yards_gained)) : ℚ) / total_tds }))

/-- One field-goal-attempt play-by-play row, as consumed by
`HistoricalPatternAnalyzer.analyze_fg_patterns` (`kicker_player_name` may be
missing, mirroring the `pd.isna` guard). -/
structure FgAttempt where
  kicker_player_name : Option String
  kick_distance : ℚ
  field_goal_result : String
  deriving DecidableEq

/-- A per-kicker entry of `HistoricalPatternAnalyzer.fg_patterns`. -/
structure FgPattern where
  pct_0_29 : ℚ
  pct_30_39 : ℚ
  pct_40_49 : ℚ
  pct_50_plus : ℚ
  deriving DecidableEq

/-- `HistoricalPatternAnalyzer.analyze_fg_patterns`: kickers with fewer than
5 made field goals are skipped; otherwise the fractions of their made field
goals in four distance bands are recorded. -/
def analyze_fg_patterns (fgs : List FgAttempt) : List (String × FgPattern) :=
  ((fgs.filterMap (·.kicker_player_name)).dedup).filterMap (fun kicker =>
    let kicker_fgs := fgs.filter (fun a => a.kicker_player_name == some kicker)
    let made_fgs := kicker_fgs.filter (fun a => a.field_goal_result == "made")
    let total_made := made_fgs.length
    if total_made < 5 then none
    else some (kicker,
      { pct_0_29 := (made_fgs.countP (fun a => decide (a.kick_distance < 30)) : ℚ) / total_made,
        pct_30_39 :=
          (made_fgs.countP (fun a => decide (30 ≤ a.kick_distance ∧ a.kick_distance < 40)) : ℚ)
            / total_made,
        pct_40_49 :=
          (made_fgs.countP (fun a => decide (40 ≤ a.kick_distance ∧ a.kick_distance < 50)) : ℚ)
            / total_made,
        pct_50_plus :=
          (made_fgs.countP (fun a => decide (50 ≤ a.kick_distance)) : ℚ) / total_made }))

/-- The league-average fallback of `get_player_td_bonus`:
`round(projected_tds * 0.05 * 3 + projected_tds * 0.03 * 5, 1)`. -/
def td_bonus_fallback (projected_tds : ℚ) : ℚ :=
  roundTo1 (projected_tds * (5/100) * 3 + projected_tds * (3/100) * 5)

/-- `HistoricalPatternAnalyzer.get_player_td_bonus`.  When the name holds a
space it is converted to short form `X.Last` via `split()`; indexing
`parts[1]` raises `IndexError` (here `none`) when fewer than two chunks
result.  A short name found in the table uses that pattern, otherwise the
league-average fallback; a name without a space always takes the fallback. -/
def get_player_td_bonus (td_patterns : List (String × TdPattern)) (player_name : String)
    (projected_tds : ℚ) : Option ℚ :=
  if player_name.data.contains ' ' then
    match pythonSplit player_name with
    | p0 :: p1 :: _ =>
      match List.lookup (shortNameOf p0 p1) td_patterns with
      | some pattern =>
        some (roundTo1 (projected_tds * pattern.pct_40_49 * 3 +
          projected_tds * pattern.pct_50_plus * 5))
      | none => some (td_bonus_fallback projected_tds)
    | _ => none
  else
    some (td_bonus_fallback projected_tds)

/-- `HistoricalPatternAnalyzer.get_kicker_points`.  Same name handling as
`get_player_td_bonus`; the fallback is `round(pat_points + projected_fgs * 3.3, 1)`. -/
def get_kicker_points (fg_patterns : List (String × FgPattern)) (kicker_name : String)
    (projected_fgs projected_pats : ℚ) : Option ℚ :=
  let pat_points := projected_pats * 1
  if kicker_name.data.contains ' ' then
    match pythonSplit kicker_name with
    | p0 :: p1 :: _ =>
      match List.lookup (shortNameOf p0 p1) fg_patterns with
      | some pattern =>
        some (roundTo1 (pat_points +
          (projected_fgs * (pattern.pct_0_29 + pattern.pct_30_39 + pattern.pct_40_49) * 3 +
            projected_fgs * pattern.pct_50_plus * 5)))
      | none => some (roundTo1 (pat_points + projected_fgs * (33/10)))
    | _ => none
  else
    some (roundTo1 (pat_points + projected_fgs * (33/10)))

/-- The projection dict consumed by `FinalLeagueScorer.calculate_projected_score`;
a key absent from the dict is `none`. -/
structure ProjData where
  completions : Option ℚ := none
  passing_yards : Option ℚ := none
  passing_tds : Option ℚ := none
  interceptions : Option ℚ := none
  sacks : Option ℚ := none
  rushing_attempts : Option ℚ := none
  rushing_yards : Option ℚ := none
  rushing_tds : Option ℚ := none
  receptions : Option ℚ := none
  receiving_yards : Option ℚ := none
  receiving_tds : Option ℚ := none
  fumbles_lost : Option ℚ := none

/-- A present stat contributes `count * rate`; an absent stat contributes 0. -/
def statPts (o : Option ℚ) (rate : ℚ) : ℚ :=
  match o with
  | none => 0
  | some v => v * rate

/-- The `passing_yards` block of `calculate_projected_score`: linear points
plus the mutually exclusive 400+/300-399 bonuses (`if`/`elif`). -/
def passing_yards_pts : Option ℚ → ℚ
  | none => 0
  | some yards => yards * (1/25) + (if yards ≥ 400 then 5 else if yards ≥ 300 then 3 else 0)

/-- The `rushing_yards` block of `calculate_projected_score`: linear points
plus the cumulative 100+ and 200+ bonuses (two independent `if`s). -/
def rushing_yards_pts : Option ℚ → ℚ
  | none => 0
  | some yards => yards * (1/10) +
      ((if yards ≥ 100 then 5 else 0) + (if yards ≥ 200 then 10 else 0))

/-- The `receiving_yards` block of `calculate_projected_score`: linear points
plus the cumulative 100+ and 200+ bonuses (two independent `if`s). -/
def receiving_yards_pts : Option ℚ → ℚ
  | none => 0
  | some yards => yards * (1/10) +
      ((if yards ≥ 100 then 5 else 0) + (if yards ≥ 200 then 10 else 0))

/-- The accumulated `score` of `FinalLeagueScorer.calculate_projected_score`
before the final `round(score, 1)`. -/
def raw_projected_score (p : ProjData) : ℚ :=
  statPts p.completions 1 + passing_yards_pts p.passing_yards + statPts p.passing_tds 4 +
    statPts p.interceptions (-2) + statPts p.sacks (-1) +
    statPts p.rushing_attempts (1/5) + rushing_yards_pts p.rushing_yards +
    statPts p.rushing_tds 6 +
    statPts p.receptions 1 + receiving_yards_pts p.receiving_yards +
    statPts p.receiving_tds 6 +
    statPts p.fumbles_lost (-2)

/-- `FinalLeagueScorer.calculate_projected_score` (offense): the accumulated
score, rounded to one decimal place. -/
def calculate_projected_score (p : ProjData) : ℚ :=
  roundTo1 (raw_projected_score p)

/-- One `(low, high): points` entry of the defense band tables. -/
structure Band where
  lo : ℚ
  hi : ℚ
  pts : ℚ
  deriving DecidableEq

/-- `DefenseScorer.points_allowed_scoring`, in insertion (iteration) order. -/
def points_allowed_scoring : List Band :=
  [⟨0, 0, 10⟩, ⟨1, 6, 7⟩, ⟨7, 13, 4⟩, ⟨14, 20, 1⟩, ⟨21, 27, 0⟩, ⟨28, 34, -1⟩, ⟨35, 100, -4⟩]

/-- `DefenseScorer.yards_allowed_bonus`. -/
def yards_allowed_bonus : List Band := [⟨0, 99, 3⟩]

/-- The band-scan loop of `DefenseScorer.calculate_projected_score`: add the
points of the first band with `low <= v <= high` and `break`; no match adds 0. -/
def bandPts (bands : List Band) (v : ℚ) : ℚ :=
  match bands.find? (fun b => decide (b.lo ≤ v ∧ v ≤ b.hi)) with
  | some b => b.pts
  | none => 0

/-- The projection dict consumed by `DefenseScorer.calculate_projected_score`
(read with `.get(key, default)`). -/
structure DefProjData where
  sacks : Option ℚ := none
  interceptions : Option ℚ := none
  fumble_recoveries : Option ℚ := none
  fumbles_forced : Option ℚ := none
  safeties : Option ℚ := none
  defensive_tds : Option ℚ := none
  blocked_kicks : Option ℚ := none
  points_allowed : Option ℚ := none
  yards_allowed : Option ℚ := none

/-- `DefenseScorer.calculate_projected_score`: linear defensive stats, a
points-allowed band (default 20 when missing), a yards-allowed band (default
300 when missing), rounded to one decimal place. -/
def defense_calculate_projected_score (p : DefProjData) : ℚ :=
  roundTo1 (p.sacks.getD 0 * 1 + p.interceptions.getD 0 * 2 +
    p.fumble_recoveries.getD 0 * 2 + p.fumbles_forced.getD 0 * 1 +
    p.safeties.getD 0 * 2 + p.defensive_tds.getD 0 * 6 + p.blocked_kicks.getD 0 * 2 +
    bandPts points_allowed_scoring (p.points_allowed.getD 20) +
    bandPts yards_allowed_bonus (p.yards_allowed.getD 300))

/-- `DefenseReturnAnalyzer.league_avg` in `fantasy_projections.py`: 62.5. -/
def league_avg : ℚ := 125/2

/-- `DefenseReturnAnalyzer.get_expected_return_yards`: the opponent's average
return yards allowed when present in the table, otherwise the league average.
(`return_yards_analyzer.py` has the same lookup, with an extra ignored
`defense_team` argument.) -/
def get_expected_return_yards (return_yards_allowed : List (String × ℚ)) (lavg : ℚ)
    (opponent_team : String) : ℚ :=
  match List.lookup opponent_team return_yards_allowed with
  | some y => y
  | none => lavg

/-- The `return_points` published for a defense by
`ProjectionAnalyzer.get_week_projections`: `round(expected_return_yards / 10, 1)`. -/
def dst_return_points (expected_return_yards : ℚ) : ℚ :=
  roundTo1 (expected_return_yards / 10)

/-- The `projected_points` published for a defense by
`ProjectionAnalyzer.get_week_projections`: `round(base_points + return_points, 1)`. -/
def dst_projected_points (base_points expected_return_yards : ℚ) : ℚ :=
  roundTo1 (base_points + dst_return_points expected_return_yards)

end FantasyProjections

namespace SaquonScorer

/-! ## `saquon_scorer.py` -/

/-- One observed touchdown row: its length and its `play_type`. -/
structure TdEvent where
  yards_gained : ℚ
  play_type : String
  deriving DecidableEq

/-- The per-touchdown bonus of the loop body in
`FinalLeagueScorer.get_weekly_td_bonuses`: for a `run` or `pass` touchdown,
5 points when 50+ yards, else 3 points when 40+ yards, else 0; other play
types get no bonus. -/
def tdEventBonus (td : TdEvent) : ℚ :=
  if td.play_type = "run" then
    if td.yards_gained ≥ 50 then 5 else if td.yards_gained ≥ 40 then 3 else 0
  else if td.play_type = "pass" then
    if td.yards_gained ≥ 50 then 5 else if td.yards_gained ≥ 40 then 3 else 0
  else 0

/-- `FinalLeagueScorer.get_weekly_td_bonuses` (the returned `total_bonus`). -/
def get_weekly_td_bonuses (player_tds : List TdEvent) : ℚ :=
  (player_tds.map tdEventBonus).sum

/-- `FinalLeagueScorer.get_weekly_yardage_bonuses` (the returned `bonus`):
cumulative 100+/200+ bonuses for rushing and, independently, receiving. -/
def get_weekly_yardage_bonuses (rushing_yards receiving_yards : ℚ) : ℚ :=
  (if rushing_yards ≥ 100 then 5 else 0) + (if rushing_yards ≥ 200 then 10 else 0) +
    ((if receiving_yards ≥ 100 then 5 else 0) + (if receiving_yards ≥ 200 then 10 else 0))

/-- `FinalLeagueScorer.get_weekly_passing_bonuses` (the returned `bonus`):
the 400+ bonus, `elif` the 300-399 bonus. -/
def get_weekly_passing_bonuses (passing_yards : ℚ) : ℚ :=
  if passing_yards ≥ 400 then 5 else if passing_yards ≥ 300 then 3 else 0

/-- The weekly stat record assembled by `calculate_weekly_score` (absent
columns already defaulted to 0), together with the player's position. -/
structure WeeklyStats where
  completions : ℚ := 0
  passing_yards : ℚ := 0
  passing_tds : ℚ := 0
  interceptions : ℚ := 0
  sacks : ℚ := 0
  carries : ℚ := 0
  rushing_yards : ℚ := 0
  rushing_tds : ℚ := 0
  receptions : ℚ := 0
  receiving_yards : ℚ := 0
  receiving_tds : ℚ := 0
  fumbles_lost : ℚ := 0
  two_point_conversions : ℚ := 0
  position : String := ""

/-- `FinalLeagueScorer.calculate_weekly_score` (the returned `score`; it is
not rounded).  Each stat contributes only under its `> 0` guard; sacks count
only for quarterbacks; the weekly touchdown-length and yardage bonuses are
added under their own `> 0` guards. -/
def calculate_weekly_score (s : WeeklyStats) (player_tds : List TdEvent) : ℚ :=
  (if s.completions > 0 then s.completions * 1 else 0) +
    (if s.passing_yards > 0 then
      s.passing_yards * (1/25) +
        (if get_weekly_passing_bonuses s.passing_yards > 0 then
          get_weekly_passing_bonuses s.passing_yards else 0)
      else 0) +
    (if s.passing_tds > 0 then s.passing_tds * 4 else 0) +
    (if s.interceptions > 0 then s.interceptions * (-2) else 0) +
    (if s.sacks > 0 ∧ s.position = "QB" then s.sacks * (-1) else 0) +
    (if s.carries > 0 then s.carries * (1/5) else 0) +
    (if s.rushing_yards > 0 then s.rushing_yards * (1/10) else 0) +
    (if s.rushing_tds > 0 then s.rushing_tds * 6 else 0) +
    (if s.receptions > 0 then s.receptions * 1 else 0) +
    (if s.receiving_yards > 0 then s.receiving_yards * (1/10) else 0) +
    (if s.receiving_tds > 0 then s.receiving_tds * 6 else 0) +
    (if s.two_point_conversions > 0 then s.two_point_conversions * 2 else 0) +
    (if s.fumbles_lost > 0 then s.fumbles_lost * (-2) else 0) +
    (if get_weekly_td_bonuses player_tds > 0 then get_weekly_td_bonuses player_tds else 0) +
    (if get_weekly_yardage_bonuses s.rushing_yards s.receiving_yards > 0 then
      get_weekly_yardage_bonuses s.rushing_yards s.receiving_yards else 0)

end SaquonScorer

namespace ScoringFinal

/-! ## `scoring_final.py` -/

/-- The touchdown-bonus computation of `scoring_final.py` (also used by
`check_td_bonus.py` and `simple_test.py`):
`sum(yards_gained >= 40) * 3 + sum(yards_gained >= 50) * 5` over the list of
the player's touchdown lengths. -/
def td_bonus (td_yards : List ℚ) : ℚ :=
  (td_yards.countP (fun y => decide (y ≥ 40)) : ℚ) * 3 +
    (td_yards.countP (fun y => decide (y ≥ 50)) : ℚ) * 5

end ScoringFinal

namespace TdPatternAnalyzer

/-! ## `td_pattern_analyzer.py` -/

/-- A per-kicker entry of `HistoricalPatternAnalyzer.fg_patterns` in
`td_pattern_analyzer.py` (five distance bands). -/
structure FgPattern5 where
  pct_0_19 : ℚ
  pct_20_29 : ℚ
  pct_30_39 : ℚ
  pct_40_49 : ℚ
  pct_50_plus : ℚ
  deriving DecidableEq

/-- The `distribution` dict built inside `get_kicker_fg_distribution`. -/
structure FgDist where
  fg_0_19 : ℚ
  fg_20_29 : ℚ
  fg_30_39 : ℚ
  fg_40_49 : ℚ
  fg_50_plus : ℚ

/-- `HistoricalPatternAnalyzer.get_kicker_fg_distribution`: expected
field-goal points from the kicker's distance distribution, or from the fixed
league-average distribution {0-19: 5%, 20-29: 20%, 30-39: 35%, 40-49: 30%,
50+: 10%} when the kicker is not in the table; sub-50 bands are worth 3
points, 50+ is worth 5; rounded to one decimal place. -/
def get_kicker_fg_distribution (fg_patterns : List (String × FgPattern5))
    (kicker_name : String) (projected_fgs : ℚ) : ℚ :=
  let d : FgDist :=
    match List.lookup kicker_name fg_patterns with
    | none =>
      { fg_0_19 := projected_fgs * (5/100), fg_20_29 := projected_fgs * (20/100),
        fg_30_39 := projected_fgs * (35/100), fg_40_49 := projected_fgs * (30/100),
        fg_50_plus := projected_fgs * (10/100) }
    | some pattern =>
      { fg_0_19 := projected_fgs * pattern.pct_0_19, fg_20_29 := projected_fgs * pattern.pct_20_29,
        fg_30_39 := projected_fgs * pattern.pct_30_39, fg_40_49 := projected_fgs * pattern.pct_40_49,
        fg_50_plus := projected_fgs * pattern.pct_50_plus }
  FantasyFootball.roundTo1
    ((d.fg_0_19 + d.fg_20_29 + d.fg_30_39 + d.fg_40_49) * 3 + d.fg_50_plus * 5)

end TdPatternAnalyzer

namespace AccuracyTracking

/-! ## `accuracy_tracking.py` -/

/-- The mean of a list of rationals (`np.mean`). -/
def mean (xs : List ℚ) : ℚ := xs.sum / xs.length

/-- The population variance (`np.std(errors) ** 2`, `ddof = 0`). -/
def popVariance (xs : List ℚ) : ℚ :=
  ((xs.map (fun x => (x - mean xs) ^ 2)).sum) / xs.length

/-- The `('68_pct', '95_pct')` pair published by
`AccuracyTracker.calculate_confidence_intervals` for one position, as a
function of the (non-negative) standard deviation `std_error` of that
position's recorded differences: `(round(std_error, 1), round(2 * std_error, 1))`.
The square root itself is not rational; theorems take the exact standard
deviation as an argument constrained by `std_error ^ 2 = popVariance errors`. -/
def confidence_entry (std_error : ℚ) : ℚ × ℚ :=
  (FantasyFootball.roundTo1 std_error, FantasyFootball.roundTo1 (2 * std_error))

end AccuracyTracking

/-! ## Spec-side definitions

These follow the specification's words rather than the code, for comparison
with the code-derived definitions above. -/

/-- Spec 4.1: the cumulative rushing yardage bonus — 100+ adds the tier-1
bonus (5), 200+ additionally adds the tier-2 bonus (10). -/
def specRushingBonus (yards : ℚ) : ℚ :=
  (if yards ≥ 100 then 5 else 0) + (if yards ≥ 200 then 10 else 0)

/-- Spec 4.1: the cumulative receiving yardage bonus, same tiers as rushing. -/
def specReceivingBonus (yards : ℚ) : ℚ :=
  (if yards ≥ 100 then 5 else 0) + (if yards ≥ 200 then 10 else 0)

/-- Spec 4.1: the non-cumulative passing yardage bonus — the 400+ bonus alone,
else the 300-399 bonus alone, else nothing. -/
def specPassingBonus (yards : ℚ) : ℚ :=
  if yards ≥ 400 then 5 else if yards ≥ 300 then 3 else 0

/-- Apply a per-yardage bonus function to an optional stat (absent = 0). -/
def optBonus (f : ℚ → ℚ) : Option ℚ → ℚ
  | none => 0
  | some y => f y

/-- Spec 4.1 "linear rate × count" portion of the offensive score: every stat
at its linear rate, with no yardage bonuses. -/
def specLinearPoints (p : FantasyProjections.ProjData) : ℚ :=
  FantasyProjections.statPts p.completions 1 +
    FantasyProjections.statPts p.passing_yards (1/25) +
    FantasyProjections.statPts p.passing_tds 4 +
    FantasyProjections.statPts p.interceptions (-2) +
    FantasyProjections.statPts p.sacks (-1) +
    FantasyProjections.statPts p.rushing_attempts (1/5) +
    FantasyProjections.statPts p.rushing_yards (1/10) +
    FantasyProjections.statPts p.rushing_tds 6 +
    FantasyProjections.statPts p.receptions 1 +
    FantasyProjections.statPts p.receiving_yards (1/10) +
    FantasyProjections.statPts p.receiving_tds 6 +
    FantasyProjections.statPts p.fumbles_lost (-2)

/-! ## Helper lemmas -/

open FantasyProjections SaquonScorer TdPatternAnalyzer AccuracyTracking

theorem abs_roundHalfEven_sub_le (q : ℚ) : |(roundHalfEven q : ℚ) - q| ≤ 1/2 := by
  unfold roundHalfEven
  have h1 : ((⌊q⌋ : ℚ)) ≤ q := Int.floor_le q
  have h2 : q < ⌊q⌋ + 1 := Int.lt_floor_add_one q
  simp only []
  split_ifs <;> (rw [abs_le]; constructor <;> push_cast <;> linarith)

theorem roundHalfEven_nonneg (q : ℚ) (h : 0 ≤ q) : 0 ≤ roundHalfEven q := by
  unfold roundHalfEven
  have h1 : 0 ≤ ⌊q⌋ := Int.floor_nonneg.mpr h
  simp only []
  split_ifs <;> omega

theorem abs_roundTo1_sub_le (q : ℚ) : |roundTo1 q - q| ≤ 1/20 := by
  have h := abs_roundHalfEven_sub_le (10 * q)
  unfold roundTo1
  have h2 : (roundHalfEven (10*q) : ℚ) / 10 - q = ((roundHalfEven (10*q) : ℚ) - 10 * q) / 10 := by
    ring
  rw [h2, abs_div, abs_of_pos (by norm_num : (0:ℚ) < 10)]
  linarith

theorem roundTo1_nonneg (q : ℚ) (h : 0 ≤ q) : 0 ≤ roundTo1 q := by
  unfold roundTo1
  have h3 := roundHalfEven_nonneg (10 * q) (by linarith)
  positivity

theorem abs_roundHalfEven_double_le (y : ℚ) :
    |(roundHalfEven (2 * y) : ℚ) - 2 * (roundHalfEven y : ℚ)| ≤ 1 := by
  have h1 := abs_roundHalfEven_sub_le y
  have h2 := abs_roundHalfEven_sub_le (2 * y)
  set a := roundHalfEven y with ha
  set b := roundHalfEven (2 * y) with hb
  have h3 : |(b : ℚ) - 2 * a| ≤ 3/2 := by
    have he : (b : ℚ) - 2 * a = ((b : ℚ) - 2 * y) + 2 * (y - a) := by ring
    calc |(b : ℚ) - 2 * a| = |((b : ℚ) - 2 * y) + 2 * (y - a)| := by rw [he]
    _ ≤ |(b : ℚ) - 2 * y| + |2 * (y - a)| := abs_add _ _
    _ ≤ 1/2 + 2 * |(a : ℚ) - y| := by
        rw [abs_mul, abs_sub_comm (y : ℚ) a]
        have h4 : |(2 : ℚ)| = 2 := by norm_num
        rw [h4]
        linarith
    _ ≤ 3/2 := by linarith
  have h4 : |b - 2 * a| ≤ 1 := by
    have h5 : |((b - 2 * a : ℤ) : ℚ)| ≤ 3/2 := by push_cast; exact h3
    have h6 : ((|b - 2 * a| : ℤ) : ℚ) ≤ 3/2 := by rw [Int.cast_abs]; exact h5
    have h7 : ((|b - 2 * a| : ℤ) : ℚ) < 2 := lt_of_le_of_lt h6 (by norm_num)
    have h8 : |b - 2 * a| < 2 := by exact_mod_cast h7
    omega
  calc |(b : ℚ) - 2 * a| = |((b - 2 * a : ℤ) : ℚ)| := by push_cast; ring_nf
  _ = ((|b - 2 * a| : ℤ) : ℚ) := by rw [Int.cast_abs]
  _ ≤ 1 := by exact_mod_cast h4

theorem lookup_eq_none_of_keys {β : Type} (l : List (String × β)) (k : String)
    (h : ∀ p ∈ l, p.1 ≠ k) : List.lookup k l = none := by
  induction l with
  | nil => rfl
  | cons p ps ih =>
    have h1 : p.1 ≠ k := h p (List.mem_cons_self p ps)
    have h2 : (k == p.1) = false := by
      simp only [beq_eq_false_iff_ne, ne_eq]
      exact fun hk => h1 hk.symm
    obtain ⟨p1, p2⟩ := p
    simp only [List.lookup, h2]
    exact ih (fun q hq => h q (List.mem_cons_of_mem _ hq))

theorem mem_analyze_td_patterns {plays : List TdPlay} {q : String × TdPattern}
    (hq : q ∈ analyze_td_patterns plays) :
    3 ≤ (plays.filter (fun p => p.td_player_name == q.1)).length := by
  unfold analyze_td_patterns at hq
  rcases List.mem_filterMap.mp hq with ⟨a, _, hfa⟩
  dsimp only at hfa
  split at hfa
  · exact absurd hfa (by simp)
  · rename_i hge
    have hk : a = q.1 := congrArg Prod.fst (Option.some.inj hfa)
    rw [← hk]
    omega

theorem mem_analyze_fg_patterns {fgs : List FgAttempt} {q : String × FgPattern}
    (hq : q ∈ analyze_fg_patterns fgs) :
    5 ≤ ((fgs.filter (fun a => a.kicker_player_name == some q.1)).filter
      (fun a => a.field_goal_result == "made")).length := by
  unfold analyze_fg_patterns at hq
  rcases List.mem_filterMap.mp hq with ⟨a, _, hfa⟩
  dsimp only at hfa
  split at hfa
  · exact absurd hfa (by simp)
  · rename_i hge
    have hk : a = q.1 := congrArg Prod.fst (Option.some.inj hfa)
    rw [← hk]
    omega

theorem bandFilter_length_le_one (bands : List Band)
    (h : bands.Pairwise (fun a b => a.hi < b.lo)) (v : ℚ) :
    (bands.filter (fun b => decide (b.lo ≤ v ∧ v ≤ b.hi))).length ≤ 1 := by
  induction bands with
  | nil => simp
  | cons b bs ih =>
    rw [List.pairwise_cons] at h
    by_cases hb : b.lo ≤ v ∧ v ≤ b.hi
    · have hrest : bs.filter (fun c => decide (c.lo ≤ v ∧ v ≤ c.hi)) = [] := by
        rw [List.filter_eq_nil_iff]
        intro c hc
        simp only [decide_eq_true_eq]
        intro hcc
        linarith [hcc.1, hb.2, h.1 c hc]
      calc ((b :: bs).filter (fun c => decide (c.lo ≤ v ∧ v ≤ c.hi))).length
          ≤ (b :: bs.filter (fun c => decide (c.lo ≤ v ∧ v ≤ c.hi))).length := by
            rw [List.filter_cons]; split_ifs <;> simp
      _ ≤ 1 := by rw [hrest]; simp
    · simp only [List.filter_cons, decide_eq_true_eq, hb, if_false]
      exact ih h.2

theorem raw_projected_score_decomp (p : ProjData) :
    raw_projected_score p = specLinearPoints p + optBonus specPassingBonus p.passing_yards +
      optBonus specRushingBonus p.rushing_yards + optBonus specReceivingBonus p.receiving_yards := by
  obtain ⟨c, py, ptd, itc, sk, ra, ry, rtd, rc, recy, rectd, fl⟩ := p
  cases py <;> cases ry <;> cases recy <;>
    (simp only [raw_projected_score, specLinearPoints, passing_yards_pts, rushing_yards_pts,
      receiving_yards_pts, statPts, optBonus, specPassingBonus, specRushingBonus,
      specReceivingBonus]; ring)

/-! ## The claims -/

/-- Claim C1: for every offensive stat record the rushing and receiving
yardage bonuses are cumulative: the projected score decomposes into the
linear points plus per-category yardage bonuses, the rushing bonus at 250
yards is exactly 5 + 10 = 15 and at 150 yards exactly 5, independently the
same for receiving, and the weekly scorer's yardage-bonus function is the sum
of the two independent cumulative bonuses. -/
theorem c1_yardage_bonuses_cumulative :
    (∀ p : ProjData, raw_projected_score p =
        specLinearPoints p + optBonus specPassingBonus p.passing_yards +
          optBonus specRushingBonus p.rushing_yards +
          optBonus specReceivingBonus p.receiving_yards)
    ∧ specRushingBonus 250 = 5 + 10 ∧ specRushingBonus 150 = 5
    ∧ specReceivingBonus 250 = 5 + 10 ∧ specReceivingBonus 150 = 5
    ∧ (∀ r w : ℚ, get_weekly_yardage_bonuses r w = specRushingBonus r + specReceivingBonus w) := by
  refine ⟨raw_projected_score_decomp, by norm_num [specRushingBonus],
    by norm_num [specRushingBonus], by norm_num [specReceivingBonus],
    by norm_num [specReceivingBonus], fun r w => ?_⟩
  simp only [get_weekly_yardage_bonuses, specRushingBonus, specReceivingBonus]

/-- Claim C2: the passing yardage bonus is non-cumulative: 350 yards gets
exactly the 300-399 bonus (3), 420 yards exactly the 400+ bonus (5), the
bonus is always one of 0, 3, 5 (never 3 + 5), the weekly scorer's passing
bonus agrees, and the projected score's passing contribution is the linear
points plus this single bonus. -/
theorem c2_passing_bonus_non_cumulative :
    specPassingBonus 350 = 3 ∧ specPassingBonus 420 = 5
    ∧ (∀ y : ℚ, specPassingBonus y = 0 ∨ specPassingBonus y = 3 ∨ specPassingBonus y = 5)
    ∧ (∀ y : ℚ, get_weekly_passing_bonuses y = specPassingBonus y)
    ∧ (∀ p : ProjData, passing_yards_pts p.passing_yards =
        statPts p.passing_yards (1/25) + optBonus specPassingBonus p.passing_yards) := by
  refine ⟨by norm_num [specPassingBonus], by norm_num [specPassingBonus], fun y => ?_,
    fun y => rfl, fun p => ?_⟩
  · unfold specPassingBonus
    split_ifs <;> simp
  · cases hpy : p.passing_yards with
    | none => simp [passing_yards_pts, statPts, optBonus]
    | some y => simp [passing_yards_pts, statPts, optBonus, specPassingBonus]

/-- Claim C3 (code bug in `scoring_final.py`): the weekly scorer awards each
run/pass touchdown its highest qualifying band only — 45 and 55 yards give
3 + 5 = 8 — but the aggregate-count computation of `scoring_final.py` counts
the 55-yard touchdown in both the 40+ and 50+ tallies and awards
3 + 3 + 5 = 11 on the same input. -/
theorem c3_td_length_bonus_highest_band :
    (∀ y : ℚ, tdEventBonus ⟨y, "run"⟩ = (if y ≥ 50 then 5 else if y ≥ 40 then 3 else 0))
    ∧ (∀ y : ℚ, tdEventBonus ⟨y, "pass"⟩ = (if y ≥ 50 then 5 else if y ≥ 40 then 3 else 0))
    ∧ get_weekly_td_bonuses [⟨45, "run"⟩, ⟨55, "pass"⟩] = 3 + 5
    ∧ ScoringFinal.td_bonus [45, 55] = 3 + 3 + 5 := by
  refine ⟨fun y => by simp [tdEventBonus], fun y => by simp [tdEventBonus], ?_, ?_⟩
  · norm_num [get_weekly_td_bonuses, tdEventBonus]
  · norm_num [ScoringFinal.td_bonus]

/-- Claim C4: the end-to-end record with 20 carries, 150 rushing yards,
1 rushing touchdown, 5 receptions, 50 receiving yards and one 10-yard
touchdown scores exactly 40.0, with no touchdown-length bonus; the same
projection record scores 40.0 through the projection scorer. -/
theorem c4_end_to_end_forty :
    calculate_weekly_score
        { carries := 20, rushing_yards := 150, rushing_tds := 1, receptions := 5,
          receiving_yards := 50, receiving_tds := 0, fumbles_lost := 0 }
        [⟨10, "run"⟩] = 40
    ∧ calculate_projected_score
        { rushing_attempts := some 20, rushing_yards := some 150, rushing_tds := some 1,
          receptions := some 5, receiving_yards := some 50, receiving_tds := some 0,
          fumbles_lost := some 0 } = 40
    ∧ get_weekly_td_bonuses [⟨10, "run"⟩] = 0 := by
  refine ⟨?_, ?_, ?_⟩
  · norm_num [calculate_weekly_score, get_weekly_td_bonuses, get_weekly_yardage_bonuses,
      get_weekly_passing_bonuses, tdEventBonus]
  · norm_num [calculate_projected_score, raw_projected_score, statPts, passing_yards_pts,
      rushing_yards_pts, receiving_yards_pts, roundTo1, roundHalfEven]
  · norm_num [get_weekly_td_bonuses, tdEventBonus]

/-- Claim C5 counterexample: `get_player_td_bonus` is not total — a player
name containing a space but splitting into fewer than two words (here a name
with a trailing space) reaches `parts[1]` and raises `IndexError`, modelled
as `none`. -/
theorem c5_counterexample_split_crash :
    get_player_td_bonus [] ("Barkley ") 1 = none := by decide

/-- Claim C5 (amended): an actor with fewer than 3 recorded touchdowns is
excluded from the pattern table; any name without a space, and any split
name whose short form is not a table key, gets the league-average fallback
`round(tds * 0.05 * 3 + tds * 0.03 * 5, 1)`; but a name containing a space
that splits into fewer than two words raises `IndexError` (`none`), so the
computation is total only away from such names. -/
theorem c5_pattern_fallback_amended :
    ∀ (plays : List TdPlay) (td_patterns : List (String × TdPattern)) (name : String) (tds : ℚ),
      ((plays.filter (fun p => p.td_player_name == name)).length < 3 →
        List.lookup name (analyze_td_patterns plays) = none)
      ∧ (name.data.contains ' ' = false →
        get_player_td_bonus td_patterns name tds = some (td_bonus_fallback tds))
      ∧ (∀ p0 p1 rest, pythonSplit name = p0 :: p1 :: rest →
        List.lookup (shortNameOf p0 p1) td_patterns = none →
        get_player_td_bonus td_patterns name tds = some (td_bonus_fallback tds))
      ∧ (name.data.contains ' ' = true → (pythonSplit name).length < 2 →
        get_player_td_bonus td_patterns name tds = none) := by
  intro plays td_patterns name tds
  refine ⟨fun hlt => ?_, fun hno => ?_, fun p0 p1 rest hsplit hlk => ?_, fun hyes hlen => ?_⟩
  · apply lookup_eq_none_of_keys
    intro q hq hk
    have h3 := mem_analyze_td_patterns hq
    rw [hk] at h3
    omega
  · simp only [get_player_td_bonus, hno, Bool.false_eq_true, if_false]
  · by_cases hsp : name.data.contains ' ' = true
    · simp only [get_player_td_bonus, hsp, hsplit, hlk, eq_self_iff_true, if_true]
    · rw [Bool.not_eq_true] at hsp
      simp only [get_player_td_bonus, hsp, Bool.false_eq_true, if_false]
  · rcases hsplit : pythonSplit name with _ | ⟨p0, rest0⟩
    · simp only [get_player_td_bonus, hyes, hsplit, eq_self_iff_true, if_true]
    · rcases rest0 with _ | ⟨p1, rest1⟩
      · simp only [get_player_td_bonus, hyes, hsplit, eq_self_iff_true, if_true]
      · rw [hsplit] at hlen
        simp only [List.length_cons] at hlen
        omega

/-- Claim C5 witness: concrete instances — one recorded touchdown is below
the threshold, so the player is absent from the table; a defense name with
no space and a two-word name absent from the table both get the fallback
(0.6 bonus points at 2 projected touchdowns); the trailing-space name fails. -/
theorem c5_pattern_fallback_amended_witness :
    List.lookup ("S.Barkley") (analyze_td_patterns [⟨"S.Barkley", 60⟩]) = none
    ∧ get_player_td_bonus [(("S.Barkley" : String), ⟨1/2, 1/2⟩)] ("Philadelphia") 2 = some (3/5)
    ∧ get_player_td_bonus [] ("Joe Burrow") 2 = some (3/5)
    ∧ get_player_td_bonus [] ("Barkley ") 2 = none := by
  refine ⟨(c5_pattern_fallback_amended [⟨"S.Barkley", 60⟩] [] ("S.Barkley") 1).1 (by decide),
    ?_, ?_, ?_⟩
  · have h := (c5_pattern_fallback_amended []
      [(("S.Barkley" : String), ⟨1/2, 1/2⟩)] ("Philadelphia") 2).2.1 (by decide)
    rw [h]
    norm_num [td_bonus_fallback, roundTo1, roundHalfEven]
  · have h := (c5_pattern_fallback_amended [] [] ("Joe Burrow") 2).2.2.1
      (['J','o','e']) (['B','u','r','r','o','w']) [] (by decide) rfl
    rw [h]
    norm_num [td_bonus_fallback, roundTo1, roundHalfEven]
  · exact (c5_pattern_fallback_amended [] [] ("Barkley ") 2).2.2.2 (by decide) (by decide)

/-- Claim C6 counterexample: for a kicker not in the table, `get_kicker_points`
pays a flat 3.3 per projected field goal, so at 1 projected field goal and 0
PATs it returns 3.3 — not the 3.2 that the fixed band distribution
(5%, 20%, 35%, 30%, 10% at 3/3/3/3/5 points) would give. -/
theorem c6_kicker_fallback_counterexample :
    get_kicker_points [] ("ChaseMcLaughlin") 1 0 = some (33/10)
    ∧ roundTo1 (0 * 1 + 1 * (16/5)) = 16/5
    ∧ ((33 : ℚ)/10) ≠ 16/5 := by
  have hc : ("ChaseMcLaughlin").data.contains ' ' = false := by decide
  refine ⟨?_, by norm_num [roundTo1, roundHalfEven], by norm_num⟩
  simp only [get_kicker_points, hc, Bool.false_eq_true, if_false]
  norm_num [roundTo1, roundHalfEven]

/-- Claim C6 (amended): a kicker with fewer than 5 made field goals is
excluded from the table; `get_kicker_points` resolves an absent (or
space-free) kicker with the flat fallback `round(pats * 1 + fgs * 3.3, 1)`,
while the fixed band distribution of the claim lives in
`get_kicker_fg_distribution`, whose fallback equals `round(fgs * 3.2, 1)`. -/
theorem c6_kicker_fallback_amended :
    ∀ (fgs : List FgAttempt) (fg_patterns : List (String × FgPattern))
      (tpatterns : List (String × FgPattern5)) (name k : String) (pfgs ppats : ℚ),
      (((fgs.filter (fun a => a.kicker_player_name == some k)).filter
          (fun a => a.field_goal_result == "made")).length < 5 →
        List.lookup k (analyze_fg_patterns fgs) = none)
      ∧ (name.data.contains ' ' = false →
        get_kicker_points fg_patterns name pfgs ppats =
          some (roundTo1 (ppats * 1 + pfgs * (33/10))))
      ∧ (∀ p0 p1 rest, pythonSplit name = p0 :: p1 :: rest →
        List.lookup (shortNameOf p0 p1) fg_patterns = none →
        get_kicker_points fg_patterns name pfgs ppats =
          some (roundTo1 (ppats * 1 + pfgs * (33/10))))
      ∧ (List.lookup k tpatterns = none →
        get_kicker_fg_distribution tpatterns k pfgs = roundTo1 (pfgs * (16/5))) := by
  intro fgs fg_patterns tpatterns name k pfgs ppats
  refine ⟨fun hlt => ?_, fun hno => ?_, fun p0 p1 rest hsplit hlk => ?_, fun hlk => ?_⟩
  · apply lookup_eq_none_of_keys
    intro q hq hk
    have h3 := mem_analyze_fg_patterns hq
    rw [hk] at h3
    omega
  · simp only [get_kicker_points, hno, Bool.false_eq_true, if_false, mul_one]
  · by_cases hsp : name.data.contains ' ' = true
    · simp only [get_kicker_points, hsp, hsplit, hlk, eq_self_iff_true, if_true, mul_one]
    · rw [Bool.not_eq_true] at hsp
      simp only [get_kicker_points, hsp, Bool.false_eq_true, if_false, mul_one]
  · simp only [get_kicker_fg_distribution, hlk]
    congr 1
    ring

/-- Claim C6 witness: a kicker with only 2 made field goals is not in the
table; fallback values at concrete inputs — `get_kicker_points` gives
`round(1 + 2 * 3.3, 1) = 7.6`, both for a space-free name and for a split
name not in the table, while `get_kicker_fg_distribution` gives
`round(2 * 3.2, 1) = 6.4`. -/
theorem c6_kicker_fallback_amended_witness :
    List.lookup ("C.Boswell") (analyze_fg_patterns
      [⟨some ("C.Boswell"), 30, "made"⟩, ⟨some ("C.Boswell"), 45, "made"⟩]) = none
    ∧ get_kicker_points [] ("JustinTucker") 2 1 = some (38/5)
    ∧ get_kicker_points [] ("Chase McLaughlin") 2 1 = some (38/5)
    ∧ get_kicker_fg_distribution [] ("C.McLaughlin") 2 = 32/5 := by
  refine ⟨(c6_kicker_fallback_amended
      [⟨some ("C.Boswell"), 30, "made"⟩, ⟨some ("C.Boswell"), 45, "made"⟩]
      [] [] ("x") ("C.Boswell") 0 0).1 (by decide), ?_, ?_, ?_⟩
  · have h := (c6_kicker_fallback_amended [] [] [] ("JustinTucker") ("x") 2 1).2.1 (by decide)
    rw [h]
    norm_num [roundTo1, roundHalfEven]
  · have h := (c6_kicker_fallback_amended [] [] [] ("Chase McLaughlin") ("x") 2 1).2.2.1
      (['C','h','a','s','e']) (['M','c','L','a','u','g','h','l','i','n']) []
      (by decide) rfl
    rw [h]
    norm_num [roundTo1, roundHalfEven]
  · have h := (c6_kicker_fallback_amended [] [] [] ("x") ("C.McLaughlin") 2 0).2.2.2 (by decide)
    rw [h]
    norm_num [roundTo1, roundHalfEven]

/-- Claim C7: the defense record with 3 sacks, 1 interception, 17 points
allowed and 250 yards allowed scores exactly 3×1 + 1×2 + 1 + 0 = 6.0, and in
each of the two band tables any value matches at most one band, so the
first-match scan is a unique-match lookup. -/
theorem c7_defense_end_to_end :
    defense_calculate_projected_score
        { sacks := some 3, interceptions := some 1, points_allowed := some 17,
          yards_allowed := some 250 } = 6
    ∧ (∀ v : ℚ, (points_allowed_scoring.filter (fun b => decide (b.lo ≤ v ∧ v ≤ b.hi))).length ≤ 1)
    ∧ (∀ v : ℚ, (yards_allowed_bonus.filter (fun b => decide (b.lo ≤ v ∧ v ≤ b.hi))).length ≤ 1) := by
  refine ⟨?_, fun v => bandFilter_length_le_one _ ?_ v, fun v => bandFilter_length_le_one _ ?_ v⟩
  · have hpa : bandPts points_allowed_scoring 17 = 1 := by decide
    have hya : bandPts yards_allowed_bonus 250 = 0 := by decide
    simp only [defense_calculate_projected_score, Option.getD_some, Option.getD_none]
    rw [hpa, hya]
    norm_num [roundTo1, roundHalfEven]
  · decide
  · decide

/-- Claim C8 counterexample: `get_week_projections` rounds the return points
themselves — at the league average of 62.5 expected return yards the
published `return_points` is `round(6.25, 1) = 6.2`, not `6.25`; and with a
base of 0.1 the published total is 6.3 while `round(0.1 + 6.25, 1)` would be
6.4. -/
theorem c8_return_points_counterexample :
    dst_return_points league_avg = 31/5
    ∧ (31/5 : ℚ) ≠ league_avg / 10
    ∧ dst_projected_points (1/10) league_avg = 63/10
    ∧ roundTo1 (1/10 + league_avg / 10) = 32/5
    ∧ (63/10 : ℚ) ≠ 32/5 := by
  refine ⟨?_, by norm_num [league_avg], ?_, ?_, by norm_num⟩
  · norm_num [dst_return_points, league_avg, roundTo1, roundHalfEven]
  · norm_num [dst_projected_points, dst_return_points, league_avg, roundTo1, roundHalfEven]
  · norm_num [league_avg, roundTo1, roundHalfEven]

/-- Claim C8 (amended): the published defense total is
`round(base + round(expected / 10, 1), 1)` where `expected` is the opposing
team's table entry, or the league average when the opponent is absent; the
intermediate rounding keeps the published total within 0.1 of
`base + expected / 10`. -/
theorem c8_dst_return_points_amended :
    ∀ (table : List (String × ℚ)) (lavg : ℚ) (opp : String) (base : ℚ),
      dst_projected_points base (get_expected_return_yards table lavg opp)
        = roundTo1 (base + roundTo1 (get_expected_return_yards table lavg opp / 10))
      ∧ (List.lookup opp table = none → get_expected_return_yards table lavg opp = lavg)
      ∧ (∀ y, List.lookup opp table = some y → get_expected_return_yards table lavg opp = y)
      ∧ |dst_projected_points base (get_expected_return_yards table lavg opp)
          - (base + get_expected_return_yards table lavg opp / 10)| ≤ 1/10 := by
  intro table lavg opp base
  refine ⟨rfl, fun h => by simp [get_expected_return_yards, h],
    fun y h => by simp [get_expected_return_yards, h], ?_⟩
  set e := get_expected_return_yards table lavg opp
  have h1 := abs_roundTo1_sub_le (e / 10)
  have h2 := abs_roundTo1_sub_le (base + roundTo1 (e / 10))
  have h3 : dst_projected_points base e - (base + e / 10) =
      (roundTo1 (base + roundTo1 (e / 10)) - (base + roundTo1 (e / 10))) +
        (roundTo1 (e / 10) - e / 10) := by
    simp only [dst_projected_points, dst_return_points]
    ring
  rw [h3]
  calc |(roundTo1 (base + roundTo1 (e / 10)) - (base + roundTo1 (e / 10))) +
        (roundTo1 (e / 10) - e / 10)|
      ≤ |roundTo1 (base + roundTo1 (e / 10)) - (base + roundTo1 (e / 10))| +
        |roundTo1 (e / 10) - e / 10| := abs_add _ _
  _ ≤ 1/20 + 1/20 := add_le_add h2 h1
  _ = 1/10 := by norm_num

/-- Claim C8 witness: with the opponent absent from the table the expected
return yards are the league average, with it present they are its table
value, and at a base of 6.0 the published total is `round(6 + 6.2, 1) = 12.2`,
within 0.1 of `6 + 6.25`. -/
theorem c8_dst_return_points_amended_witness :
    get_expected_return_yards [(("DAL" : String), 50)] (125/2) ("PHI") = 125/2
    ∧ get_expected_return_yards [(("PHI" : String), 55)] (125/2) ("PHI") = 55
    ∧ dst_projected_points 6 (125/2) = 61/5
    ∧ |dst_projected_points 6 (125/2) - (6 + (125/2) / 10)| ≤ 1/10 := by
  have h1 := c8_dst_return_points_amended [(("DAL" : String), 50)] (125/2) ("PHI") 6
  have h2 := c8_dst_return_points_amended [(("PHI" : String), 55)] (125/2) ("PHI") 6
  have he : get_expected_return_yards [(("DAL" : String), 50)] (125/2) ("PHI") = 125/2 :=
    h1.2.1 (by decide)
  have he2 : get_expected_return_yards [(("PHI" : String), 55)] (125/2) ("PHI") = 55 :=
    h2.2.2.1 55 (by decide)
  refine ⟨he, he2, ?_, ?_⟩
  · have h3 := h1.1
    rw [he] at h3
    rw [h3]
    norm_num [roundTo1, roundHalfEven]
  · have h4 := h1.2.2.2
    rw [he] at h4
    exact h4

/-- Claim C9 counterexample: for recorded differences 2.5 and 0.0 the
population standard deviation is exactly 1.25, and the published interval is
`(round(1.25, 1), round(2.5, 1)) = (1.2, 2.5)` — but `2.5 ≠ 2 × 1.2`, so the
published `two_sigma` is not exactly twice the published `one_sigma`. -/
theorem c9_confidence_counterexample :
    popVariance [5/2, 0] = 25/16
    ∧ (0 : ℚ) ≤ 5/4 ∧ ((5/4 : ℚ)) ^ 2 = 25/16
    ∧ confidence_entry (5/4) = (6/5, 5/2)
    ∧ (5/2 : ℚ) ≠ 2 * (6/5) := by
  refine ⟨?_, by norm_num, by norm_num, ?_, by norm_num⟩
  · norm_num [popVariance, mean]
  · unfold confidence_entry
    norm_num [roundTo1, roundHalfEven]

/-- Claim C9 (amended): for any recorded differences and their exact standard
deviation, both published interval bounds are non-negative; they are the
one-decimal roundings of sigma and of 2 × sigma (so the 2× relation holds
exactly before rounding), and the published pair satisfies
`|two_sigma − 2 × one_sigma| ≤ 0.1`, with exact equality failing in general
after rounding. -/
theorem c9_confidence_amended :
    ∀ (errors : List ℚ) (sd : ℚ), 0 ≤ sd → sd ^ 2 = popVariance errors →
      0 ≤ (confidence_entry sd).1 ∧ 0 ≤ (confidence_entry sd).2
      ∧ (confidence_entry sd).1 = roundTo1 sd ∧ (confidence_entry sd).2 = roundTo1 (2 * sd)
      ∧ |(confidence_entry sd).2 - 2 * (confidence_entry sd).1| ≤ 1/10 := by
  intro errors sd hsd _
  refine ⟨roundTo1_nonneg sd hsd, roundTo1_nonneg _ (by linarith), rfl, rfl, ?_⟩
  show |roundTo1 (2 * sd) - 2 * roundTo1 sd| ≤ 1/10
  unfold roundTo1
  have h20 : (10 : ℚ) * (2 * sd) = 2 * (10 * sd) := by ring
  rw [h20]
  have h := abs_roundHalfEven_double_le (10 * sd)
  have heq : (roundHalfEven (2 * (10 * sd)) : ℚ) / 10 - 2 * ((roundHalfEven (10 * sd) : ℚ) / 10)
      = ((roundHalfEven (2 * (10 * sd)) : ℚ) - 2 * (roundHalfEven (10 * sd) : ℚ)) / 10 := by
    ring
  rw [heq, abs_div, abs_of_pos (show (0 : ℚ) < 10 by norm_num)]
  linarith

/-- Claim C9 witness: the amended theorem applied at the recorded differences
2.5 and 0.0, whose population standard deviation is exactly 1.25. -/
theorem c9_confidence_amended_witness :
    (0 : ℚ) ≤ 5/4 ∧ ((5/4 : ℚ)) ^ 2 = popVariance [5/2, 0]
    ∧ (0 ≤ (confidence_entry (5/4)).1 ∧ 0 ≤ (confidence_entry (5/4)).2
      ∧ (confidence_entry (5/4)).1 = roundTo1 (5/4)
      ∧ (confidence_entry (5/4)).2 = roundTo1 (2 * (5/4))
      ∧ |(confidence_entry (5/4)).2 - 2 * (confidence_entry (5/4)).1| ≤ 1/10) := by
  have h1 : (0 : ℚ) ≤ 5/4 := by norm_num
  have h2 : ((5/4 : ℚ)) ^ 2 = popVariance [5/2, 0] := by norm_num [popVariance, mean]
  exact ⟨h1, h2, c9_confidence_amended [5/2, 0] (5/4) h1 h2⟩

/-- Claim C10: a player or kicker name without a space never consults the
pattern table — both lookups return the league-average fallback for every
table, even one holding that exact name as a key. -/
theorem c10_no_space_always_fallback :
    ∀ (td_patterns : List (String × TdPattern)) (fg_patterns : List (String × FgPattern))
      (name : String) (tds pfgs ppats : ℚ),
      name.data.contains ' ' = false →
      get_player_td_bonus td_patterns name tds = some (td_bonus_fallback tds)
      ∧ get_kicker_points fg_patterns name pfgs ppats =
          some (roundTo1 (ppats * 1 + pfgs * (33/10))) := by
  intro td_patterns fg_patterns name tds pfgs ppats h
  constructor
  · simp only [get_player_td_bonus, h, Bool.false_eq_true, if_false]
  · simp only [get_kicker_points, h, Bool.false_eq_true, if_false, mul_one]

/-- Claim C10 witness: the historical short forms are present as exact keys
in their tables, yet the lookups return the league-average fallback values
(0.3 touchdown-bonus points, 3.3 kicker points). -/
theorem c10_no_space_always_fallback_witness :
    get_player_td_bonus [(("S.Barkley" : String), ⟨1/2, 1/2⟩)] ("S.Barkley") 1 = some (3/10)
    ∧ get_kicker_points [(("C.Boswell" : String), ⟨1/4, 1/4, 1/4, 1/4⟩)] ("C.Boswell") 1 0
      = some (33/10) := by
  have h1 := (c10_no_space_always_fallback [(("S.Barkley" : String), ⟨1/2, 1/2⟩)] []
    ("S.Barkley") 1 0 0 (by decide)).1
  have h2 := (c10_no_space_always_fallback [] [(("C.Boswell" : String), ⟨1/4, 1/4, 1/4, 1/4⟩)]
    ("C.Boswell") 0 1 0 (by decide)).2
  refine ⟨?_, ?_⟩
  · rw [h1]
    norm_num [td_bonus_fallback, roundTo1, roundHalfEven]
  · rw [h2]
    norm_num [roundTo1, roundHalfEven]

end FantasyFootball
